import Mathlib

/-!
# Logic::CameraController (src/logic/CameraController.h)

A shallow embedding of the camera controller of REGoth.  The class state is a
record with one field per data member; a member function is a function on
`World`, the pair of the controller object and the state of the static input
subsystem `Engine::Input`.

Types whose declarations live in other headers (`Handle::EntityHandle`,
`Math::float3`, `Math::Matrix`, `float`, the `Controller` base class,
`Engine::ActionType`, `Engine::Action*`) are type parameters: the functions
embedded here only store and copy values of these types.
-/

namespace Logic

/-- Types used by the class whose declarations are outside this header and that
the embedded code treats as plain data. -/
structure Decls where
  /-- The type `Handle::EntityHandle` -/
  EntityHandle : Type
  /-- The C++ type `float` -/
  float : Type
  /-- The type `Math::float3` -/
  float3 : Type
  /-- The type `Math::Matrix` -/
  Matrix : Type
  /-- The data members of the base class `Controller` -/
  Controller : Type

namespace CameraController

/-- The `enum class ECameraMode` (lines 12-19). -/
inductive ECameraMode where
  | Free
  | Static
  | FirstPerson
  | ThirdPerson
  | Viewer
  deriving DecidableEq, Repr

/-- Underlying value of an enumerator: `Free = 0, Static = 1, FirstPerson = 2,
ThirdPerson = 3`, and `Viewer`, which has no initialiser, is the previous
enumerator plus one. -/
def ECameraMode.toCode : ECameraMode → Nat
  | .Free => 0
  | .Static => 1
  | .FirstPerson => 2
  | .ThirdPerson => 3
  | .Viewer => 3 + 1

/-- Anonymous struct `freeCameraSettings` (lines 26-33). -/
structure FreeCameraSettings (Action : Type) where
  actionMoveForward : Action
  actionMoveRight : Action
  actionMoveUp : Action
  actionLookHorizontal : Action
  actionLookVertical : Action

/-- Anonymous struct `firstPersonCameraSettings` (lines 38-44). -/
structure FirstPersonCameraSettings (Action : Type) where
  actionMoveForward : Action
  actionMoveRight : Action
  actionLookHorizontal : Action
  actionLookVertical : Action

/-- Anonymous struct `thirdPersonCameraSettings` (lines 49-64). -/
structure ThirdPersonCameraSettings (D : Decls) (Action : Type) where
  actionWheel : Action
  actionLookVertical : Action
  actionLookHorizontal : Action
  currentLookAt : D.float3
  currentOffsetDirection : D.float3
  zoomExponent : D.float
  pitch : D.float
  cameraElevation : D.float
  deltaPhi : D.float

/-- Anonymous struct `floatingCameraSettings` (lines 66-71). -/
structure FloatingCameraSettings (D : Decls) where
  yaw : D.float
  pitch : D.float
  position : D.float3
  up : D.float3
  right : D.float3
  forward : D.float3

/-- Anonymous struct `viewerCameraSettings` (lines 76-94); the member `in` is
spelled `in_` here. -/
structure ViewerCameraSettings (D : Decls) (Action : Type) where
  actionViewHorizontal : Action
  actionViewVertical : Action
  actionPan : Action
  actionZoom : Action
  actionRotate : Action
  actionClick : Action
  actionWheel : Action
  isPanModifier : Bool
  isZoomModifier : Bool
  isRotateModifier : Bool
  lookAt : D.float3
  mouseWheel : D.float
  up : D.float3
  right : D.float3
  in_ : D.float3
  yaw : D.float
  pitch : D.float
  zoom : D.float

/-- The `struct CameraSettings` (lines 21-95). -/
structure CameraSettings (D : Decls) (Action : Type) where
  freeCameraSettings : FreeCameraSettings Action
  firstPersonCameraSettings : FirstPersonCameraSettings Action
  thirdPersonCameraSettings : ThirdPersonCameraSettings D Action
  floatingCameraSettings : FloatingCameraSettings D
  viewerCameraSettings : ViewerCameraSettings D Action

/-- The type of `m_KeyBindings` (line 196),
`std::map<ECameraMode, std::vector<std::pair<Engine::ActionType, Engine::Action*>>>`: a key is either absent (`none`) or mapped to a vector. -/
abbrev KeyBindings (ActionType Action : Type) : Type :=
  ECameraMode → Option (List (ActionType × Action))

/-- The expression `m[key]` of `std::map` used as a write target: the mapped vector, a
default-constructed empty one being inserted when the key is absent, replaced by
`g` applied to it. -/
def KeyBindings.modifyAt {ActionType Action : Type} (m : KeyBindings ActionType Action)
    (key : ECameraMode) (g : List (ActionType × Action) → List (ActionType × Action)) :
    KeyBindings ActionType Action :=
  fun k => if k = key then some (g ((m key).getD [])) else m k

/-- The vector stored under a key, empty when the key is absent. -/
def KeyBindings.listOf {ActionType Action : Type} (m : KeyBindings ActionType Action)
    (key : ECameraMode) : List (ActionType × Action) :=
  (m key).getD []

end CameraController

open CameraController in
/-- Data members of `class CameraController` (lines 171-213), preceded by the
base-class subobject. -/
structure CameraController (D : Decls) (ActionType Action : Type) where
  base : D.Controller
  m_Active : Bool
  m_CameraMode : ECameraMode
  m_FollowedEntity : D.EntityHandle
  m_CameraSettings : CameraSettings D Action
  m_KeyBindings : KeyBindings ActionType Action
  m_ViewMatrix : D.Matrix
  m_moveSpeedMultiplier : D.float
  m_savedPdir : D.float3

/-- Program state seen by the member functions: the controller object and the
state of the static input subsystem `Engine::Input`. -/
structure World (D : Decls) (ActionType Action σ : Type) where
  self : CameraController D ActionType Action
  input : σ

namespace CameraController

variable {D : Decls} {ActionType Action σ Functor : Type}

/-- Member `void setActive(bool active) { m_Active = active; }` (lines 120-123). -/
def setActive (active : Bool) (w : World D ActionType Action σ) : World D ActionType Action σ :=
  { w with self := { w.self with m_Active := active } }

/-- Member `void followEntity(Handle::EntityHandle h) { m_FollowedEntity = h; }`
(lines 128-131). -/
def followEntity (h : D.EntityHandle) (w : World D ActionType Action σ) :
    World D ActionType Action σ :=
  { w with self := { w.self with m_FollowedEntity := h } }

/-- Member `void setDebugMoveSpeed(float moveSpeedMultiplier)
{ m_moveSpeedMultiplier = moveSpeedMultiplier; }` (line 146). -/
def setDebugMoveSpeed (moveSpeedMultiplier : D.float) (w : World D ActionType Action σ) :
    World D ActionType Action σ :=
  { w with self := { w.self with m_moveSpeedMultiplier := moveSpeedMultiplier } }

/-- Member `CameraSettings& getCameraSettings()` (lines 136-139). -/
def getCameraSettings (w : World D ActionType Action σ) : CameraSettings D Action :=
  w.self.m_CameraSettings

/-- Member template `registerBinding` (lines 152-158).  `RegisterAction` is
`Engine::Input::RegisterAction`, declared in `engine/Input.h`: given the action
type and the functor it returns a handle and the new state of the input
subsystem.

    auto action = Engine::Input::RegisterAction(actionType, functor);
    m_KeyBindings[cameraMode].push_back(std::make_pair(actionType, action));
    return action;
-/
def registerBinding (RegisterAction : ActionType → Functor → σ → Action × σ)
    (cameraMode : ECameraMode) (actionType : ActionType) (functor : Functor)
    (w : World D ActionType Action σ) : Action × World D ActionType Action σ :=
  let r := RegisterAction actionType functor w.input
  let action := r.1
  (action,
    { self := { w.self with
                m_KeyBindings :=
                  w.self.m_KeyBindings.modifyAt cameraMode (fun v => v ++ [(actionType, action)]) },
      input := r.2 })

end CameraController

namespace Engine

/-- An input subsystem instrumented with a log of the registration requests it
received: each call of the wrapped `RegisterAction` adds one log entry. -/
def Input.logged {ActionType Functor Action σ : Type}
    (RegisterAction : ActionType → Functor → σ → Action × σ) :
    ActionType → Functor → σ × List (ActionType × Functor) →
      Action × (σ × List (ActionType × Functor)) :=
  fun t f st => ((RegisterAction t f st.1).1, ((RegisterAction t f st.1).2, st.2 ++ [(t, f)]))

/-- Modelled from the spec: one registration held by the input subsystem
(`engine/Input.h` is not part of the sources at hand).  Section 6:
"`registerAction(actionKind, callback) -> handle`; `unregister(handle)`":
a registration pairs the action kind with the callback, and `registered` tells
whether the handle has not been unregistered yet. -/
structure Registration (ActionType Functor : Type) where
  actionType : ActionType
  callback : Functor
  registered : Bool
  deriving DecidableEq, Repr

/-- Modelled from the spec: the state of the input subsystem, missing from the
sources: all registrations made so far, oldest first.  A handle is the position
of its registration, so that "handles remain valid until explicitly
unregistered" and a handle is never handed out twice. -/
abbrev InputState (ActionType Functor : Type) : Type :=
  List (Registration ActionType Functor)

/-- Modelled from the spec: `registerAction(actionKind, callback) -> handle` of
the missing input subsystem: the new registration is stored and its handle is
returned. -/
def Input.RegisterAction {ActionType Functor : Type} (actionType : ActionType)
    (callback : Functor) (st : InputState ActionType Functor) :
    Nat × InputState ActionType Functor :=
  (st.length, st ++ [{ actionType := actionType, callback := callback, registered := true }])

/-- Modelled from the spec: `unregister(handle)` of the missing input
subsystem: "unregistering a handle guarantees no further callback invocations
for it"; a handle that was never handed out is ignored. -/
def Input.unregister {ActionType Functor : Type} (handle : Nat)
    (st : InputState ActionType Functor) : InputState ActionType Functor :=
  match st[handle]? with
  | some r => st.set handle { r with registered := false }
  | none => st

end Engine

namespace CameraController

variable {D : Decls} {ActionType Functor : Type}

/-- World whose input subsystem is the one modelled from the spec; an
`Engine::Action*` is then a handle of that subsystem. -/
abbrev SpecWorld (D : Decls) (ActionType Functor : Type) : Type :=
  World D ActionType Nat (Engine.InputState ActionType Functor)

/-- Modelled from the spec: `clearBindings` (declared at line 163, its body is
in the missing `CameraController.cpp`).  Section 4.2: "`clearBindings()`
unregisters every handle currently recorded for the active mode and empties
that mode's record." -/
def clearBindings (w : SpecWorld D ActionType Functor) : SpecWorld D ActionType Functor :=
  { self := { w.self with
              m_KeyBindings := w.self.m_KeyBindings.modifyAt w.self.m_CameraMode (fun _ => []) },
    input := (w.self.m_KeyBindings.listOf w.self.m_CameraMode).foldl
      (fun st p => Engine.Input.unregister p.2 st) w.input }

/-- Modelled from the spec: installing the binding set required by a mode, one
`registerBinding` call per declared binding, in order. -/
def registerDeclared (mode : ECameraMode) (bindings : List (ActionType × Functor))
    (w : SpecWorld D ActionType Functor) : SpecWorld D ActionType Functor :=
  bindings.foldl (fun acc b => (registerBinding Engine.Input.RegisterAction mode b.1 b.2 acc).2) w

/-- Modelled from the spec: `setCameraMode` (declared at line 115, its body is
in the missing `CameraController.cpp`).  Section 4.1: "`setMode(mode)` tears
down all bindings owned by the currently active mode (via BindingLifecycle),
then registers the binding set required by `mode`, then sets the active mode to
`mode`."  `declared` is the binding set each mode requires. -/
def setCameraMode (declared : ECameraMode → List (ActionType × Functor)) (mode : ECameraMode)
    (w : SpecWorld D ActionType Functor) : SpecWorld D ActionType Functor :=
  let w1 := clearBindings w
  let w2 := registerDeclared mode (declared mode) w1
  { w2 with self := { w2.self with m_CameraMode := mode } }

/-- Invariant 1 of the spec, on the controller side: bindings are recorded for
the active mode only. -/
def BindingsOwnedByActive (w : SpecWorld D ActionType Functor) : Prop :=
  ∀ m, m ≠ w.self.m_CameraMode → w.self.m_KeyBindings.listOf m = []

/-- Modelled from the spec: the pose updaters and the view-transform builder
(sections 4.4-4.8), whose code is in the missing `CameraController.cpp`.
`update mode deltaTime env w` is the pose updater of `mode`: it reads the
settings, the action values and followed transform `env`, mutates the world in
place and yields the pose; `viewTransform` turns a pose into the view matrix. -/
structure PoseUpdaters (D : Decls) (ActionType Action σ Env Pose : Type) where
  update : ECameraMode → D.float → Env → World D ActionType Action σ →
    World D ActionType Action σ × Pose
  viewTransform : Pose → D.Matrix

variable {Action σ Env Pose : Type}

/-- Modelled from the spec: the update of an active controller (section 2,
"Data flow per tick"): the updater of the active mode runs, then the view
transform is derived from the pose it produced. -/
def normalUpdate (U : PoseUpdaters D ActionType Action σ Env Pose) (deltaTime : D.float)
    (env : Env) (w : World D ActionType Action σ) : World D ActionType Action σ :=
  let r := U.update w.self.m_CameraMode deltaTime env w
  { r.1 with self := { r.1.self with m_ViewMatrix := U.viewTransform r.2 } }

/-- Modelled from the spec: `onUpdateExplicit` (declared at line 110, its body
is in the missing `CameraController.cpp`).  Section 5: `setActive(false)` "must
be checked before any mutation in `onUpdate` and suspends all pose and binding
mutation until reactivated"; section 4.1: "when inactive, `onUpdate` must not
read or mutate pose state". -/
def onUpdateExplicit (U : PoseUpdaters D ActionType Action σ Env Pose) (deltaTime : D.float)
    (env : Env) (w : World D ActionType Action σ) : World D ActionType Action σ :=
  if w.self.m_Active then normalUpdate U deltaTime env w else w

/-- A finite sequence of ticks, each with its own `deltaTime` and action
values. -/
def runTicks (U : PoseUpdaters D ActionType Action σ Env Pose) (ticks : List (D.float × Env))
    (w : World D ActionType Action σ) : World D ActionType Action σ :=
  ticks.foldl (fun acc t => onUpdateExplicit U t.1 t.2 acc) w

end CameraController

/-! ## A small instance, for evaluating the embedding -/

namespace Sample

/-- Four action kinds standing in for `Engine::ActionType`. -/
inductive ActionKind where
  | MoveForward
  | LookHorizontal
  | LookVertical
  | Wheel
  deriving DecidableEq, Repr

/-- A binding set per mode. -/
def declared : CameraController.ECameraMode → List (ActionKind × Nat)
  | .Free => [(.MoveForward, 10), (.LookHorizontal, 11)]
  | .FirstPerson => [(.LookHorizontal, 20), (.LookVertical, 21)]
  | .ThirdPerson => [(.Wheel, 30), (.LookHorizontal, 31), (.LookVertical, 32)]
  | .Viewer => [(.Wheel, 40)]
  | .Static => []

end Sample

/-! ## The inline members of the header -/

namespace CameraController

section Inline

variable {D : Decls} {ActionType Action σ Functor : Type}

/-- C8: the camera mode is a closed variant with exactly the five members Free,
Static, FirstPerson, ThirdPerson and Viewer, pairwise distinct, with numeric
codes 0, 1, 2, 3 and 4; the mode-to-code map is injective; and a controller
state holds exactly one mode value, which is one of the five. -/
theorem ECameraMode_closed_variant :
    (∀ m : ECameraMode, m = .Free ∨ m = .Static ∨ m = .FirstPerson ∨ m = .ThirdPerson ∨
      m = .Viewer) ∧
    [ECameraMode.Free, .Static, .FirstPerson, .ThirdPerson, .Viewer].Nodup ∧
    [ECameraMode.Free, .Static, .FirstPerson, .ThirdPerson, .Viewer].map ECameraMode.toCode
      = [0, 1, 2, 3, 4] ∧
    Function.Injective ECameraMode.toCode ∧
    (∀ (D : Decls) (ActionType Action : Type) (c : CameraController D ActionType Action),
      (∃! m : ECameraMode, c.m_CameraMode = m) ∧
      (c.m_CameraMode = .Free ∨ c.m_CameraMode = .Static ∨ c.m_CameraMode = .FirstPerson ∨
        c.m_CameraMode = .ThirdPerson ∨ c.m_CameraMode = .Viewer)) := by
  refine ⟨fun m => by cases m <;> simp, by decide, by decide, ?_, ?_⟩
  · intro a b h
    cases a <;> cases b <;> first | rfl | (exact absurd h (by decide))
  · intro D ActionType Action c
    refine ⟨⟨c.m_CameraMode, rfl, fun y hy => hy.symm⟩, ?_⟩
    cases c.m_CameraMode <;> simp

/-- C2: for every state and every entity handle `h`, `followEntity h` is total
(no validity check, no failure), sets the followed-object reference to `h`
whatever it was before, and leaves the active mode, the active flag, the
settings, the recorded bindings, the view matrix, the move-speed multiplier and
every other part of the state as they were. -/
theorem followEntity_replaces_reference (h : D.EntityHandle)
    (w : World D ActionType Action σ) :
    (followEntity h w).self.m_FollowedEntity = h ∧
    (followEntity h w).self.m_CameraMode = w.self.m_CameraMode ∧
    (followEntity h w).self.m_Active = w.self.m_Active ∧
    (followEntity h w).self.m_CameraSettings = w.self.m_CameraSettings ∧
    (followEntity h w).self.m_KeyBindings = w.self.m_KeyBindings ∧
    (followEntity h w).self.m_ViewMatrix = w.self.m_ViewMatrix ∧
    (followEntity h w).self.m_moveSpeedMultiplier = w.self.m_moveSpeedMultiplier ∧
    (followEntity h w).self.m_savedPdir = w.self.m_savedPdir ∧
    (followEntity h w).self.base = w.self.base ∧
    (followEntity h w).input = w.input :=
  ⟨rfl, rfl, rfl, rfl, rfl, rfl, rfl, rfl, rfl, rfl⟩

/-- C3: for every state and every boolean `b`, `setActive b` keeps the per-mode
binding map identical, leaves the input subsystem untouched (nothing is
unregistered), sets the active flag to `b`, and changes no other field. -/
theorem setActive_keeps_bindings (b : Bool) (w : World D ActionType Action σ) :
    (setActive b w).self.m_KeyBindings = w.self.m_KeyBindings ∧
    (setActive b w).input = w.input ∧
    (setActive b w).self.m_Active = b ∧
    (setActive b w).self.m_CameraMode = w.self.m_CameraMode ∧
    (setActive b w).self.m_FollowedEntity = w.self.m_FollowedEntity ∧
    (setActive b w).self.m_CameraSettings = w.self.m_CameraSettings ∧
    (setActive b w).self.m_ViewMatrix = w.self.m_ViewMatrix ∧
    (setActive b w).self.m_moveSpeedMultiplier = w.self.m_moveSpeedMultiplier ∧
    (setActive b w).self.m_savedPdir = w.self.m_savedPdir ∧
    (setActive b w).self.base = w.self.base :=
  ⟨rfl, rfl, rfl, rfl, rfl, rfl, rfl, rfl, rfl, rfl⟩

/-- C10: each of the setters `setActive`, `followEntity`, `setDebugMoveSpeed`
writes its own field and nothing else (the field holds the argument afterwards,
and writing the value the field already holds gives back the same state), is
last-write-wins and idempotent, and any two different setters commute, from
every state. -/
theorem setters_last_write_wins_and_commute (a b : Bool) (g h : D.EntityHandle)
    (x y : D.float) (w : World D ActionType Action σ) :
    ((setActive a w).self.m_Active = a ∧ setActive w.self.m_Active w = w ∧
      (followEntity g w).self.m_FollowedEntity = g ∧
      followEntity w.self.m_FollowedEntity w = w ∧
      (setDebugMoveSpeed x w).self.m_moveSpeedMultiplier = x ∧
      setDebugMoveSpeed w.self.m_moveSpeedMultiplier w = w) ∧
    (setActive b (setActive a w) = setActive b w ∧
      followEntity h (followEntity g w) = followEntity h w ∧
      setDebugMoveSpeed y (setDebugMoveSpeed x w) = setDebugMoveSpeed y w) ∧
    (setActive a (setActive a w) = setActive a w ∧
      followEntity g (followEntity g w) = followEntity g w ∧
      setDebugMoveSpeed x (setDebugMoveSpeed x w) = setDebugMoveSpeed x w) ∧
    (setActive a (followEntity g w) = followEntity g (setActive a w) ∧
      setActive a (setDebugMoveSpeed x w) = setDebugMoveSpeed x (setActive a w) ∧
      followEntity g (setDebugMoveSpeed x w) = setDebugMoveSpeed x (followEntity g w)) :=
  ⟨⟨rfl, rfl, rfl, rfl, rfl, rfl⟩, ⟨rfl, rfl, rfl⟩, ⟨rfl, rfl, rfl⟩, ⟨rfl, rfl, rfl⟩⟩

/-- C1: for every state, mode `m`, action kind `k` and callback `f`, whatever
the input subsystem is: `registerBinding m k f` returns the handle that the
registration of `(k, f)` returned, leaves the input subsystem in the state that
this one registration produced, records `(k, handle)` under mode `m`, and, when
the input subsystem logs the requests it receives, adds the single entry
`(k, f)` to the log. -/
theorem registerBinding_contract (RegisterAction : ActionType → Functor → σ → Action × σ)
    (m : ECameraMode) (k : ActionType) (f : Functor) (w : World D ActionType Action σ) :
    (registerBinding RegisterAction m k f w).1 = (RegisterAction k f w.input).1 ∧
    (registerBinding RegisterAction m k f w).2.input = (RegisterAction k f w.input).2 ∧
    (k, (RegisterAction k f w.input).1) ∈
      (registerBinding RegisterAction m k f w).2.self.m_KeyBindings.listOf m ∧
    (∀ log : List (ActionType × Functor),
      (registerBinding (Engine.Input.logged RegisterAction) m k f
        { self := w.self, input := (w.input, log) }).2.input.2 = log ++ [(k, f)] ∧
      (registerBinding (Engine.Input.logged RegisterAction) m k f
        { self := w.self, input := (w.input, log) }).1 = (RegisterAction k f w.input).1) := by
  refine ⟨rfl, rfl, ?_, fun log => ⟨rfl, rfl⟩⟩
  simp [registerBinding, KeyBindings.listOf, KeyBindings.modifyAt]

/-- C9: for every state, mode `m`, action kind `k` and callback `f`,
`registerBinding m k f` appends: the list under `m` becomes the old list
followed by the one new pair (so its length grows by one and the old entries
keep their positions and values, nothing being replaced or merged), the entry
of every other mode is unchanged, and the active mode, the active flag, the
followed reference and the settings are unchanged. -/
theorem registerBinding_appends (RegisterAction : ActionType → Functor → σ → Action × σ)
    (m : ECameraMode) (k : ActionType) (f : Functor) (w : World D ActionType Action σ) :
    (registerBinding RegisterAction m k f w).2.self.m_KeyBindings.listOf m =
      w.self.m_KeyBindings.listOf m ++ [(k, (registerBinding RegisterAction m k f w).1)] ∧
    ((registerBinding RegisterAction m k f w).2.self.m_KeyBindings.listOf m).length =
      (w.self.m_KeyBindings.listOf m).length + 1 ∧
    (∀ i, i < (w.self.m_KeyBindings.listOf m).length →
      ((registerBinding RegisterAction m k f w).2.self.m_KeyBindings.listOf m)[i]? =
        (w.self.m_KeyBindings.listOf m)[i]?) ∧
    (∀ m2, m2 ≠ m →
      (registerBinding RegisterAction m k f w).2.self.m_KeyBindings m2 =
        w.self.m_KeyBindings m2) ∧
    (registerBinding RegisterAction m k f w).2.self.m_CameraMode = w.self.m_CameraMode ∧
    (registerBinding RegisterAction m k f w).2.self.m_Active = w.self.m_Active ∧
    (registerBinding RegisterAction m k f w).2.self.m_FollowedEntity =
      w.self.m_FollowedEntity ∧
    (registerBinding RegisterAction m k f w).2.self.m_CameraSettings =
      w.self.m_CameraSettings := by
  have happ : (registerBinding RegisterAction m k f w).2.self.m_KeyBindings.listOf m =
      w.self.m_KeyBindings.listOf m ++ [(k, (registerBinding RegisterAction m k f w).1)] := by
    simp [registerBinding, KeyBindings.listOf, KeyBindings.modifyAt]
  refine ⟨happ, ?_, ?_, ?_, rfl, rfl, rfl, rfl⟩
  · rw [happ]; simp
  · intro i hi
    rw [happ, List.getElem?_append_left hi]
  · intro m2 hm2
    simp [registerBinding, KeyBindings.modifyAt, hm2]

end Inline

end CameraController

/-! ## The input subsystem modelled from the spec -/

namespace Engine

section InputLemmas

variable {ActionType Functor : Type}

end InputLemmas

end Engine

/-! ## Mode switches, on the members modelled from the spec -/

namespace CameraController

section ModeSwitch

variable {D : Decls} {ActionType Functor : Type}

theorem registerDeclared_other (mode : ECameraMode) (bs : List (ActionType × Functor))
    (w : SpecWorld D ActionType Functor) (m : ECameraMode) (hm : m ≠ mode) :
    (registerDeclared mode bs w).self.m_KeyBindings m = w.self.m_KeyBindings m := by
  unfold registerDeclared
  induction bs generalizing w with
  | nil => simp
  | cons b bs ih =>
    rw [List.foldl_cons, ih]
    simp [registerBinding, KeyBindings.modifyAt, hm]

theorem setCameraMode_mode (declared : ECameraMode → List (ActionType × Functor))
    (mode : ECameraMode) (w : SpecWorld D ActionType Functor) :
    (setCameraMode declared mode w).self.m_CameraMode = mode := rfl

/-- The record of any other mode after a switch: emptied if it was the active
mode, untouched otherwise. -/
theorem setCameraMode_listOf_other (declared : ECameraMode → List (ActionType × Functor))
    (mode : ECameraMode) (w : SpecWorld D ActionType Functor) (m : ECameraMode)
    (hm : m ≠ mode) :
    (setCameraMode declared mode w).self.m_KeyBindings.listOf m =
      if m = w.self.m_CameraMode then [] else w.self.m_KeyBindings.listOf m := by
  have h := registerDeclared_other mode (declared mode) (clearBindings w) m hm
  have h2 : (setCameraMode declared mode w).self.m_KeyBindings.listOf m =
      (clearBindings w).self.m_KeyBindings.listOf m := by
    simp only [setCameraMode, KeyBindings.listOf, h]
  rw [h2]
  by_cases hmc : m = w.self.m_CameraMode <;>
    simp [clearBindings, KeyBindings.listOf, KeyBindings.modifyAt, hmc]

theorem setCameraMode_owned (declared : ECameraMode → List (ActionType × Functor))
    (mode : ECameraMode) (w : SpecWorld D ActionType Functor)
    (hInv : BindingsOwnedByActive w) :
    BindingsOwnedByActive (setCameraMode declared mode w) := by
  intro m hm
  rw [setCameraMode_mode] at hm
  rw [setCameraMode_listOf_other declared mode w m hm]
  by_cases hmc : m = w.self.m_CameraMode
  · simp [hmc]
  · simp [hmc, hInv m hmc]

end ModeSwitch

/-! ## Ticks of an inactive controller, on the member modelled from the spec -/

section Ticks

variable {D : Decls} {ActionType Action σ Env Pose : Type}

/-- A tick of an inactive controller changes nothing. -/
theorem onUpdateExplicit_inactive (U : PoseUpdaters D ActionType Action σ Env Pose)
    (deltaTime : D.float) (env : Env) (w : World D ActionType Action σ)
    (h : w.self.m_Active = false) : onUpdateExplicit U deltaTime env w = w := by
  simp [onUpdateExplicit, h]

/-- Any number of ticks of an inactive controller changes nothing. -/
theorem runTicks_inactive (U : PoseUpdaters D ActionType Action σ Env Pose)
    (ticks : List (D.float × Env)) (w : World D ActionType Action σ)
    (h : w.self.m_Active = false) : runTicks U ticks w = w := by
  unfold runTicks
  induction ticks with
  | nil => rfl
  | cons t ticks ih => rw [List.foldl_cons, onUpdateExplicit_inactive U t.1 t.2 w h, ih]

/-- C7: for every state, all updaters and every finite sequence of ticks (any
`deltaTime`, any action values): after `setActive false` the ticks leave the
whole state, in particular the view matrix and the settings, as `setActive
false` left it; and after a following `setActive true` the next tick is the
normal update of the active mode, applied to the state as it was before the
pause. -/
theorem setActive_false_suspends_ticks (U : PoseUpdaters D ActionType Action σ Env Pose)
    (ticks : List (D.float × Env)) (w : World D ActionType Action σ) :
    runTicks U ticks (setActive false w) = setActive false w ∧
    (runTicks U ticks (setActive false w)).self.m_ViewMatrix = w.self.m_ViewMatrix ∧
    (runTicks U ticks (setActive false w)).self.m_CameraSettings = w.self.m_CameraSettings ∧
    (∀ (deltaTime : D.float) (env : Env),
      onUpdateExplicit U deltaTime env (runTicks U ticks (setActive false w)) =
        runTicks U ticks (setActive false w)) ∧
    (∀ (deltaTime : D.float) (env : Env),
      onUpdateExplicit U deltaTime env
          (setActive true (runTicks U ticks (setActive false w))) =
        normalUpdate U deltaTime env (setActive true w) ∧
      (setActive true w).self.m_CameraMode = w.self.m_CameraMode) := by
  have h := runTicks_inactive U ticks (setActive false w) rfl
  refine ⟨h, by rw [h]; rfl, by rw [h]; rfl, ?_, ?_⟩
  · intro deltaTime env
    rw [h]
    exact onUpdateExplicit_inactive U deltaTime env _ rfl
  · intro deltaTime env
    rw [h]
    exact ⟨by simp [onUpdateExplicit, setActive], rfl⟩

end Ticks

end CameraController

end Logic
